import Mathlib

/-!
Shallow embedding of the simulation core of `eveonlinefirewallsim`
(player battleship, smartbomb, guided missiles, enemy ships, and the
1 Hz tick scheduler), together with theorems settling the frozen claims
about the specification.  JavaScript numbers are modelled as real
numbers; `Math.random()` call sites are modelled by explicitly injected
draw records; nullable references become `Option`/`Bool` presence flags.
Rendering-only state (meshes, lights, visual effects) is omitted: it is
never read back by the simulation logic.
-/

namespace FirewallSim

/-- A 3-component vector `{x, y, z}`, used for positions and velocities. -/
structure V3 where
  x : ℝ
  y : ℝ
  z : ℝ

noncomputable section

/-- `Utils.distance3D(pos1, pos2)`. -/
def distance3D (pos1 pos2 : V3) : ℝ :=
  let dx := pos2.x - pos1.x
  let dy := pos2.y - pos1.y
  let dz := pos2.z - pos1.z
  Real.sqrt (dx * dx + dy * dy + dz * dz)

/-- `Utils.normalize(vector)`: zero vector when the length is `0`. -/
def normalize (vector : V3) : V3 :=
  let length := Real.sqrt (vector.x * vector.x + vector.y * vector.y + vector.z * vector.z)
  if length = 0 then ⟨0, 0, 0⟩
  else ⟨vector.x / length, vector.y / length, vector.z / length⟩

/-- Magnitude of a vector, as computed inline throughout the source. -/
def norm3 (v : V3) : ℝ :=
  Real.sqrt (v.x * v.x + v.y * v.y + v.z * v.z)

/-- `Utils.randomFloat(min, max)` where `r` stands for the `Math.random()`
draw in `[0, 1)`. -/
def randomFloat (lo hi r : ℝ) : ℝ :=
  r * (hi - lo) + lo

/-- `Utils.randomPointOnSphere(radius)`; `u`, `v` stand for the two
`Math.random()` draws. -/
def randomPointOnSphere (radius u v : ℝ) : V3 :=
  let theta := u * Real.pi * 2
  let phi := Real.arccos (2 * v - 1)
  ⟨radius * Real.sin phi * Real.cos theta,
   radius * Real.sin phi * Real.sin theta,
   radius * Real.cos phi⟩

/-- `Utils.calculateMissileDamage`: `Math.pow(velFactor, 0.5)` is real
exponentiation by `0.5`. -/
def calculateMissileDamage (baseDamage targetSigRadius targetVelocity
    missileExpRadius missileVelocity : ℝ) : ℝ :=
  let sigFactor := min 1 (targetSigRadius / missileExpRadius)
  let velFactor := targetVelocity / missileVelocity
  baseDamage * sigFactor * velFactor ^ (0.5 : ℝ)

/-- Mutable state of the `Smartbomb` class (the fixed stats are the
constants below; visual-effect state is omitted). -/
structure Smartbomb where
  isCycling : Bool
  cooldownRemaining : ℝ
  activationCount : ℕ

namespace Smartbomb

/-- `this.range = 7500`. -/
def range : ℝ := 7500
/-- `this.damage = 200`. -/
def damage : ℝ := 200
/-- `this.cycleTime = 3000`. -/
def cycleTime : ℝ := 3000
/-- `this.capacitorCost = 600`. -/
def capacitorCost : ℝ := 600

/-- Smartbomb state as built by the constructor. -/
def init : Smartbomb :=
  { isCycling := false, cooldownRemaining := 0, activationCount := 0 }

/-- The cooldown part of `Smartbomb.update()` (the rest of that method
only moves the visual range indicator). -/
def update (sb : Smartbomb) : Smartbomb :=
  if sb.cooldownRemaining > 0 then
    let c := sb.cooldownRemaining - 1000
    { sb with cooldownRemaining := c, isCycling := if c ≤ 0 then false else sb.isCycling }
  else sb

end Smartbomb

/-- Mutable state of the `Battleship` class; fields the source never
reassigns (base stats, module stats) are the constants below. -/
structure Battleship where
  position : V3
  velocity : V3
  targetPosition : Option V3
  navigationMode : Option String
  currentSpeed : ℝ
  maxSpeed : ℝ
  signatureRadius : ℝ
  currentShield : ℝ
  currentArmor : ℝ
  currentCapacitor : ℝ
  afterburnerActive : Bool
  mwdActive : Bool
  mwdCycleRemaining : ℝ
  smartbomb : Smartbomb

namespace Battleship

/-- `this.baseSpeed = 125`. -/
def baseSpeed : ℝ := 125
/-- `this.baseSignatureRadius = 400`. -/
def baseSignatureRadius : ℝ := 400
/-- `this.maxShield = 10000`. -/
def maxShield : ℝ := 10000
/-- `this.maxArmor = 8000`. -/
def maxArmor : ℝ := 8000
/-- `this.maxCapacitor = 5000`. -/
def maxCapacitor : ℝ := 5000
/-- `this.capacitorRecharge = 100`. -/
def capacitorRecharge : ℝ := 100
/-- `this.afterburnerBoost = 1.5`. -/
def afterburnerBoost : ℝ := 1.5
/-- `this.afterburnerSigPenalty = 1.1`. -/
def afterburnerSigPenalty : ℝ := 1.1
/-- `this.afterburnerCapCost = 50`. -/
def afterburnerCapCost : ℝ := 50
/-- `this.mwdBoost = 5.0`. -/
def mwdBoost : ℝ := 5
/-- `this.mwdSigPenalty = 6.0`. -/
def mwdSigPenalty : ℝ := 6
/-- `this.mwdCapCost = 200`. -/
def mwdCapCost : ℝ := 200
/-- `this.mwdCycleTime = 10000`. -/
def mwdCycleTime : ℝ := 10000

/-- Battleship state as built by the constructor. -/
def init : Battleship where
  position := ⟨0, 0, 0⟩
  velocity := ⟨0, 0, 0⟩
  targetPosition := none
  navigationMode := none
  currentSpeed := 0
  maxSpeed := baseSpeed
  signatureRadius := baseSignatureRadius
  currentShield := maxShield
  currentArmor := maxArmor
  currentCapacitor := maxCapacitor
  afterburnerActive := false
  mwdActive := false
  mwdCycleRemaining := 0
  smartbomb := Smartbomb.init

/-- `Battleship.updatePropulsion(deltaTime)`. -/
def updatePropulsion (deltaTime : ℝ) (b : Battleship) : Battleship :=
  let b := { b with maxSpeed := baseSpeed, signatureRadius := baseSignatureRadius }
  let b :=
    if b.afterburnerActive then
      if b.currentCapacitor ≥ afterburnerCapCost then
        { b with maxSpeed := b.maxSpeed * afterburnerBoost,
                 signatureRadius := b.signatureRadius * afterburnerSigPenalty,
                 currentCapacitor := b.currentCapacitor - afterburnerCapCost }
      else { b with afterburnerActive := false }
    else b
  if b.mwdActive then
    let rem := b.mwdCycleRemaining - deltaTime * 1000
    if rem > 0 ∧ b.currentCapacitor ≥ mwdCapCost then
      { b with mwdCycleRemaining := rem,
               maxSpeed := b.maxSpeed * mwdBoost,
               signatureRadius := b.signatureRadius * mwdSigPenalty,
               currentCapacitor := b.currentCapacitor - mwdCapCost }
    else { b with mwdActive := false, mwdCycleRemaining := 0 }
  else b

/-- `Battleship.updateNavigation(deltaTime)` (the `lookAt` call only
orients the mesh and is omitted). -/
def updateNavigation (deltaTime : ℝ) (b : Battleship) : Battleship :=
  match b.targetPosition with
  | none =>
      { b with velocity := ⟨b.velocity.x * 0.95, b.velocity.y * 0.95, b.velocity.z * 0.95⟩ }
  | some tp =>
      let direction : V3 := ⟨tp.x - b.position.x, tp.y - b.position.y, tp.z - b.position.z⟩
      let distance := Real.sqrt (direction.x * direction.x + direction.y * direction.y +
        direction.z * direction.z)
      if distance < 100 then
        { b with targetPosition := none }
      else
        let normalized := normalize direction
        let acceleration := b.maxSpeed * 0.3
        let v : V3 := ⟨b.velocity.x + normalized.x * acceleration * deltaTime,
                       b.velocity.y + normalized.y * acceleration * deltaTime,
                       b.velocity.z + normalized.z * acceleration * deltaTime⟩
        let currentVel := Real.sqrt (v.x * v.x + v.y * v.y + v.z * v.z)
        let v2 : V3 :=
          if currentVel > b.maxSpeed then
            let ratio := b.maxSpeed / currentVel
            ⟨v.x * ratio, v.y * ratio, v.z * ratio⟩
          else v
        { b with velocity := v2,
                 position := ⟨b.position.x + v2.x * deltaTime,
                              b.position.y + v2.y * deltaTime,
                              b.position.z + v2.z * deltaTime⟩ }

/-- `Battleship.rechargeCapacitor()`. -/
def rechargeCapacitor (b : Battleship) : Battleship :=
  { b with currentCapacitor := min maxCapacitor (b.currentCapacitor + capacitorRecharge) }

/-- `Battleship.update(deltaTime)`: propulsion, navigation, capacitor
recharge, smartbomb cooldown, then the derived speed scalar. -/
def update (deltaTime : ℝ) (b : Battleship) : Battleship :=
  let b := updatePropulsion deltaTime b
  let b := updateNavigation deltaTime b
  let b := rechargeCapacitor b
  let b := { b with smartbomb := Smartbomb.update b.smartbomb }
  { b with currentSpeed := Real.sqrt (b.velocity.x * b.velocity.x +
      b.velocity.y * b.velocity.y + b.velocity.z * b.velocity.z) }

/-- `Battleship.navigateTo(position, mode)`. -/
def navigateTo (pos : V3) (mode : String) (b : Battleship) : Battleship :=
  { b with targetPosition := some pos, navigationMode := some mode }

/-- `Battleship.toggleAfterburner()`: returns the new state. -/
def toggleAfterburner (b : Battleship) : Bool × Battleship :=
  (!b.afterburnerActive, { b with afterburnerActive := !b.afterburnerActive })

/-- `Battleship.activateMWD()`: returns `false` and leaves the ship
unchanged when already active. -/
def activateMWD (b : Battleship) : Bool × Battleship :=
  if b.mwdActive then (false, b)
  else (true, { b with mwdActive := true, mwdCycleRemaining := mwdCycleTime })

/-- `Battleship.takeDamage(damage)`: shield first, overflow into armor. -/
def takeDamage (damage : ℝ) (b : Battleship) : Battleship :=
  if b.currentShield > 0 then
    let s := b.currentShield - damage
    if s < 0 then
      { b with currentShield := 0, currentArmor := b.currentArmor + s }
    else
      { b with currentShield := s }
  else if b.currentArmor > 0 then
    let a := b.currentArmor - damage
    { b with currentArmor := if a < 0 then 0 else a }
  else b

end Battleship

/-- Mutable state of the `Missile` class; `destroyTime` models the field
the scheduler's retention filter reads (`undefined` in the source, since
no code path ever assigns it — hence an `Option` that stays `none`).
`hasTarget` models the nullable `this.target` back-reference to the
player battleship. -/
structure Missile where
  position : V3
  hasTarget : Bool
  currentHP : ℝ
  flightTime : ℝ
  alive : Bool
  hasImpacted : Bool
  destroyTime : Option ℝ

namespace Missile

/-- `this.maxHP = 120`. -/
def maxHP : ℝ := 120
/-- `this.velocity = 3000`. -/
def velocity : ℝ := 3000
/-- `this.explosionRadius = 125`. -/
def explosionRadius : ℝ := 125
/-- `this.explosionVelocity = 150`. -/
def explosionVelocity : ℝ := 150
/-- `this.baseDamage = 500`. -/
def baseDamage : ℝ := 500
/-- `this.maxFlightTime = 20`. -/
def maxFlightTime : ℝ := 20

end Missile

/-- Missile state as built by the constructor (`new Missile(scene,
startPos, target, launcherId)`). -/
def mkMissile (startPos : V3) (hasTarget : Bool) : Missile where
  position := startPos
  hasTarget := hasTarget
  currentHP := Missile.maxHP
  flightTime := 0
  alive := true
  hasImpacted := false
  destroyTime := none

namespace Missile

/-- `Missile.destroy(reason)`: only flips `alive`; the reason is only fed
to the visual explosion, and `destroyTime` is never written. -/
def destroy (_reason : String) (m : Missile) : Missile :=
  if !m.alive then m else { m with alive := false }

/-- `Missile.takeDamage(damage)`: returns whether this call destroyed the
missile, plus the new missile state. -/
def takeDamage (damage : ℝ) (m : Missile) : Bool × Missile :=
  if !m.alive then (false, m)
  else
    let m := { m with currentHP := m.currentHP - damage }
    if m.currentHP ≤ 0 then (true, destroy "destroyed" m)
    else (false, m)

/-- `Missile.impact()`: guarded by `hasImpacted`/`alive`; applies the
damage-model result to the target battleship, then self-destructs.
The `|| 0` / `|| 400` fallbacks for falsy target fields are kept. -/
def impact (m : Missile) (target : Battleship) : Missile × Battleship :=
  if m.hasImpacted || !m.alive then (m, target)
  else
    let m := { m with hasImpacted := true }
    let targetVelocity := if target.currentSpeed = 0 then 0 else target.currentSpeed
    let targetSigRadius := if target.signatureRadius = 0 then 400 else target.signatureRadius
    let damage := calculateMissileDamage baseDamage targetSigRadius targetVelocity
      explosionRadius explosionVelocity
    let target := Battleship.takeDamage damage target
    (destroy "impact" m, target)

/-- `Missile.update(deltaTime)`: flight-time advance with timeout, homing
motion toward the target's current position, and the 50-unit impact
check.  The target battleship is threaded explicitly since `impact`
mutates it. -/
def update (deltaTime : ℝ) (m : Missile) (target : Battleship) : Missile × Battleship :=
  if !m.alive || !m.hasTarget then (m, target)
  else
    let m := { m with flightTime := m.flightTime + deltaTime }
    if m.flightTime ≥ maxFlightTime then (destroy "timeout" m, target)
    else
      let targetPos := target.position
      let direction : V3 := ⟨targetPos.x - m.position.x, targetPos.y - m.position.y,
                             targetPos.z - m.position.z⟩
      let normalized := normalize direction
      let dist := velocity * deltaTime
      let m := { m with position := ⟨m.position.x + normalized.x * dist,
                                     m.position.y + normalized.y * dist,
                                     m.position.z + normalized.z * dist⟩ }
      let distToTarget := distance3D m.position targetPos
      if distToTarget < 50 then impact m target
      else (m, target)

end Missile

namespace Smartbomb

/-- `Smartbomb.applyDamage(missiles)`: damages every live missile within
range of the owner's position, counting the ones destroyed by this call. -/
def applyDamage (ownerPos : V3) (missiles : List Missile) : ℕ × List Missile :=
  missiles.foldl
    (fun acc m =>
      if !m.alive then (acc.1, acc.2 ++ [m])
      else
        let dist := distance3D ownerPos m.position
        if dist ≤ range then
          let r := Missile.takeDamage damage m
          (acc.1 + (if r.1 then 1 else 0), acc.2 ++ [r.2])
        else (acc.1, acc.2 ++ [m]))
    (0, [])

/-- Outcome of `Smartbomb.activate`. -/
inductive Result where
  | failure (reason : String)
  | success (missilesDestroyed : ℕ) (activationCount : ℕ)
deriving DecidableEq

/-- `Smartbomb.activate(missiles)`: `cycling`/`no_cap` gating, capacitor
debit, cooldown start, activation count, then area damage.  The owner
battleship (holding the capacitor and the smartbomb state) and the
tracked missile list are threaded explicitly. -/
def activate (b : Battleship) (missiles : List Missile) :
    Result × Battleship × List Missile :=
  if b.smartbomb.isCycling then (.failure "cycling", b, missiles)
  else if b.currentCapacitor < capacitorCost then (.failure "no_cap", b, missiles)
  else
    let b := { b with currentCapacitor := b.currentCapacitor - capacitorCost }
    let b := { b with smartbomb :=
      { b.smartbomb with isCycling := true, cooldownRemaining := cycleTime,
                         activationCount := b.smartbomb.activationCount + 1 } }
    let r := applyDamage b.position missiles
    (.success r.1 b.smartbomb.activationCount, b, r.2)

end Smartbomb

/-- Mutable state of the `EnemyShip` class (ship type and mesh are
rendering-only; `signatureRadius` is the constant below; `hasTarget`
models the nullable `this.target` reference). -/
structure EnemyShip where
  position : V3
  velocity : V3
  currentSpeed : ℝ
  maxSpeed : ℝ
  targetPosition : Option V3
  behaviorChangeTimer : ℝ
  behaviorChangeInterval : ℝ
  missileTimer : ℝ
  missileLaunchInterval : ℝ
  volleySize : ℕ
  hasTarget : Bool
  launchedMissiles : List Missile

/-- One `Math.random()` draw per call site of an enemy-ship update:
`behaviorPick` selects the behavior (`Math.random()` before `* 3` and
`floor`), `distRoll` is the distance roll of the chosen branch,
`sphereTheta`/`spherePhi` are the two draws of `randomPointOnSphere`,
`speedRoll` re-rolls `maxSpeed`, and `jitter i` is the per-missile launch
offset built from three `randomFloat(-10, 10)` draws. -/
structure EnemyDraws where
  behaviorPick : ℝ
  distRoll : ℝ
  sphereTheta : ℝ
  spherePhi : ℝ
  speedRoll : ℝ
  jitter : ℕ → V3

namespace EnemyShip

/-- `this.signatureRadius = 125`. -/
def signatureRadius : ℝ := 125

/-- `EnemyShip.chooseNewBehavior()`: picks one of the three behaviors,
sets a fresh destination, then re-rolls `maxSpeed`.  A pick index outside
`0..2` matches no `switch` case and leaves the destination unchanged,
exactly as in the source. -/
def chooseNewBehavior (d : EnemyDraws) (target : Battleship) (e : EnemyShip) : EnemyShip :=
  if !e.hasTarget then e
  else
    let targetPos := target.position
    let idx : ℤ := ⌊d.behaviorPick * 3⌋
    let e :=
      if idx = 0 then
        let orbitDist := randomFloat 30000 70000 d.distRoll
        let offset := randomPointOnSphere orbitDist d.sphereTheta d.spherePhi
        { e with targetPosition := some ⟨targetPos.x + offset.x, targetPos.y + offset.y,
                                         targetPos.z + offset.z⟩ }
      else if idx = 1 then
        let keepDist := randomFloat 40000 80000 d.distRoll
        let direction := normalize ⟨e.position.x - targetPos.x, e.position.y - targetPos.y,
                                    e.position.z - targetPos.z⟩
        { e with targetPosition := some ⟨targetPos.x + direction.x * keepDist,
                                         targetPos.y + direction.y * keepDist,
                                         targetPos.z + direction.z * keepDist⟩ }
      else if idx = 2 then
        let offset := randomPointOnSphere (randomFloat 50000 90000 d.distRoll)
          d.sphereTheta d.spherePhi
        { e with targetPosition := some ⟨targetPos.x + offset.x, targetPos.y + offset.y,
                                         targetPos.z + offset.z⟩ }
      else e
    { e with maxSpeed := randomFloat 200 600 d.speedRoll }

/-- `EnemyShip.updateMovement(deltaTime)`: pursuit toward the current
destination, clamp to `maxSpeed`, integrate position; no idle drag.
Note the source assigns `currentSpeed` the pre-clamp magnitude. -/
def updateMovement (deltaTime : ℝ) (e : EnemyShip) : EnemyShip :=
  match e.targetPosition with
  | none => e
  | some tp =>
      let direction : V3 := ⟨tp.x - e.position.x, tp.y - e.position.y, tp.z - e.position.z⟩
      let normalized := normalize direction
      let acceleration := e.maxSpeed * 0.2
      let v : V3 := ⟨e.velocity.x + normalized.x * acceleration * deltaTime,
                     e.velocity.y + normalized.y * acceleration * deltaTime,
                     e.velocity.z + normalized.z * acceleration * deltaTime⟩
      let currentVel := Real.sqrt (v.x * v.x + v.y * v.y + v.z * v.z)
      let v2 : V3 :=
        if currentVel > e.maxSpeed then
          let ratio := e.maxSpeed / currentVel
          ⟨v.x * ratio, v.y * ratio, v.z * ratio⟩
        else v
      { e with velocity := v2, currentSpeed := currentVel,
               position := ⟨e.position.x + v2.x * deltaTime,
                            e.position.y + v2.y * deltaTime,
                            e.position.z + v2.z * deltaTime⟩ }

/-- `EnemyShip.launchMissileVolley()`: builds `volleySize` missiles at
jittered launch positions, appends them to `launchedMissiles`, and
returns the new missiles. -/
def launchMissileVolley (jitter : ℕ → V3) (e : EnemyShip) : List Missile × EnemyShip :=
  if !e.hasTarget then ([], e)
  else
    let missiles := (List.range e.volleySize).map (fun i =>
      let offset := jitter i
      mkMissile ⟨e.position.x + offset.x, e.position.y + offset.y, e.position.z + offset.z⟩ true)
    (missiles, { e with launchedMissiles := e.launchedMissiles ++ missiles })

/-- `EnemyShip.update(deltaTime)`: behavior-change timer (reloaded with
the spawn-time `behaviorChangeInterval`), movement, then the
missile-launch timer.  The volley returned by `launchMissileVolley` is
discarded here, exactly as in the source. -/
def update (deltaTime : ℝ) (d : EnemyDraws) (target : Battleship) (e : EnemyShip) : EnemyShip :=
  let e1 : EnemyShip := { e with behaviorChangeTimer := e.behaviorChangeTimer - deltaTime }
  let e2 : EnemyShip :=
    if e1.behaviorChangeTimer ≤ 0 then
      let ec := chooseNewBehavior d target e1
      { ec with behaviorChangeTimer := ec.behaviorChangeInterval }
    else e1
  let e3 := updateMovement deltaTime e2
  let e4 : EnemyShip := { e3 with missileTimer := e3.missileTimer - deltaTime }
  if e4.missileTimer ≤ 0 then
    if e4.hasTarget then
      let r := launchMissileVolley d.jitter e4
      { r.2 with missileTimer := r.2.missileLaunchInterval }
    else e4
  else e4

end EnemyShip

/-- The scheduler's statistics record (`sessionStartTime` is wall-clock
bookkeeping only and is omitted). -/
structure Stats where
  missilesLaunched : ℕ
  missilesDestroyed : ℕ
  smartbombCycles : ℕ

/-- The state owned by `SimulationManager`. -/
structure SimState where
  battleship : Battleship
  enemies : List EnemyShip
  missiles : List Missile
  stats : Stats

namespace SimulationManager

/-- `SimulationManager.checkEnemyMissileLaunch(enemy)`: always returns
the empty list in the source. -/
def checkEnemyMissileLaunch (_enemy : EnemyShip) : List Missile := []

/-- One step of the `enemies.forEach` body in `tick()`: update the enemy,
then register the result of `checkEnemyMissileLaunch` (pushing the new
missiles and bumping `missilesLaunched` when non-empty). -/
def enemyStep (deltaTime : ℝ) (draws : ℕ → EnemyDraws) (target : Battleship)
    (acc : List EnemyShip × List Missile × ℕ) (ie : ℕ × EnemyShip) :
    List EnemyShip × List Missile × ℕ :=
  let e := EnemyShip.update deltaTime (draws ie.1) target ie.2
  let newMissiles := checkEnemyMissileLaunch e
  if newMissiles.length > 0 then
    (acc.1 ++ [e], acc.2.1 ++ newMissiles, acc.2.2 + newMissiles.length)
  else
    (acc.1 ++ [e], acc.2.1, acc.2.2)

/-- One step of the `missiles.forEach` body in `tick()`: live missiles
are advanced (possibly damaging the battleship on impact), dead ones are
left untouched. -/
def missileStep (deltaTime : ℝ) (acc : List Missile × Battleship) (m : Missile) :
    List Missile × Battleship :=
  if m.alive then
    let r := Missile.update deltaTime m acc.2
    (acc.1 ++ [r.1], r.2)
  else (acc.1 ++ [m], acc.2)

/-- The retention predicate of `tick()`'s clean-up filter:
`m.alive || (Date.now() - m.destroyTime < 1000)`.  A `destroyTime` that
was never assigned is `undefined`, making the comparison `NaN < 1000`,
i.e. `false` — the `none` branch. -/
def retainMissile (now : ℝ) (m : Missile) : Bool :=
  m.alive || (match m.destroyTime with
              | some t => decide (now - t < 1000)
              | none => false)

/-- `SimulationManager.tick()`: battleship, enemies (collecting launch
results), live missiles, then the clean-up filter.  `now` stands for
`Date.now()` and `draws i` for the random draws consumed by enemy `i`. -/
def tick (now : ℝ) (draws : ℕ → EnemyDraws) (s : SimState) : SimState :=
  let deltaTime : ℝ := 1
  let b := Battleship.update deltaTime s.battleship
  let er := (s.enemies.enum).foldl (enemyStep deltaTime draws b)
    ([], s.missiles, s.stats.missilesLaunched)
  let mr := er.2.1.foldl (missileStep deltaTime) ([], b)
  let missiles := mr.1.filter (retainMissile now)
  { battleship := mr.2, enemies := er.1, missiles := missiles,
    stats := { s.stats with missilesLaunched := er.2.2 } }

/-- `SimulationManager.activateSmartbomb()`: delegates to the owned
smartbomb and folds a success into the statistics. -/
def activateSmartbomb (s : SimState) : Smartbomb.Result × SimState :=
  let r := Smartbomb.activate s.battleship s.missiles
  match r.1 with
  | .success destroyed _ =>
      let stats := { s.stats with
        smartbombCycles := s.stats.smartbombCycles + 1,
        missilesDestroyed := s.stats.missilesDestroyed + destroyed }
      (r.1, { s with battleship := r.2.1, missiles := r.2.2, stats := stats })
  | .failure _ => (r.1, { s with battleship := r.2.1, missiles := r.2.2 })

end SimulationManager

/-- An all-zero randomness source: every `Math.random()` draw is `0`. -/
def zeroDraws : EnemyDraws where
  behaviorPick := 0
  distRoll := 0
  sphereTheta := 0
  spherePhi := 0
  speedRoll := 0
  jitter := fun _ => ⟨0, 0, 0⟩

/-- A battleship whose tank is fully depleted (both shield and armor 0). -/
def c10Ship : Battleship :=
  { Battleship.init with currentShield := 0, currentArmor := 0 }

/-- A battleship whose smartbomb is mid-cycle. -/
def c4CyclingShip : Battleship :=
  { Battleship.init with smartbomb := { Smartbomb.init with isCycling := true } }

/-- A battleship whose capacitor is below the smartbomb cost. -/
def c4PoorShip : Battleship :=
  { Battleship.init with currentCapacitor := 100 }

/-- A missile that has already been destroyed. -/
def c8DeadMissile : Missile :=
  { mkMissile ⟨0, 0, 0⟩ true with alive := false }

/-- An enemy ship whose missile-launch timer elapses on the next tick
with a volley size of 3 (its behavior-change timer stays far from 0). -/
def c1Enemy : EnemyShip where
  position := ⟨100000, 0, 0⟩
  velocity := ⟨0, 0, 0⟩
  currentSpeed := 0
  maxSpeed := 300
  targetPosition := none
  behaviorChangeTimer := 100
  behaviorChangeInterval := 10
  missileTimer := 1
  missileLaunchInterval := 7
  volleySize := 3
  hasTarget := true
  launchedMissiles := []

/-- A scheduler state with one enemy about to launch, an empty tracked
missile set and zeroed statistics. -/
def c1State : SimState where
  battleship := Battleship.init
  enemies := [c1Enemy]
  missiles := []
  stats := ⟨0, 0, 0⟩

/-- A scheduler state whose tracked set holds one already-destroyed
missile (with the never-assigned `destroyTime` still unset). -/
def c9State : SimState where
  battleship := Battleship.init
  enemies := []
  missiles := [{ mkMissile ⟨9000, 0, 0⟩ true with alive := false }]
  stats := ⟨3, 1, 0⟩

/-- Externally triggered events affecting the battleship's tank: a
scheduler tick, or an incoming `takeDamage` call. -/
inductive PCmd where
  | tick : PCmd
  | hit : ℝ → PCmd

/-- Run a sequence of ticks and incoming-damage calls on a battleship. -/
def runCmds : List PCmd → Battleship → Battleship
  | [], b => b
  | PCmd.tick :: rest, b => runCmds rest (Battleship.update 1 b)
  | PCmd.hit d :: rest, b => runCmds rest (Battleship.takeDamage d b)

/-- The tank bounds that actually hold on the code: shield and capacitor
within `[0, max]`, armor bounded above by its max (but not below). -/
def TankInv (b : Battleship) : Prop :=
  0 ≤ b.currentShield ∧ b.currentShield ≤ Battleship.maxShield ∧
  b.currentArmor ≤ Battleship.maxArmor ∧
  0 ≤ b.currentCapacitor ∧ b.currentCapacitor ≤ Battleship.maxCapacitor

/-- A battleship coasting at 500 m/s with no navigation target and no
propulsion module active (its recomputed `maxSpeed` is the base 125). -/
def c3FastShip : Battleship :=
  { Battleship.init with velocity := ⟨500, 0, 0⟩, currentSpeed := 500 }

/-- A battleship with a distant navigation target. -/
def c3NavShip : Battleship :=
  { Battleship.init with targetPosition := some ⟨50000, 0, 0⟩ }

/-- The freshly constructed battleship (at the origin, capacitor 5000)
right after a successful `activateMWD()` call. -/
def c6Start : Battleship := (Battleship.activateMWD Battleship.init).2

/-- An enemy ship spawned with a 19.5 s behavior-change interval whose
behavior-change timer elapses on the next tick (and whose missile timer
is far from elapsing). -/
def c7Enemy : EnemyShip where
  position := ⟨50000, 0, 0⟩
  velocity := ⟨0, 0, 0⟩
  currentSpeed := 0
  maxSpeed := 400
  targetPosition := none
  behaviorChangeTimer := 0.5
  behaviorChangeInterval := 19.5
  missileTimer := 100
  missileLaunchInterval := 7
  volleySize := 4
  hasTarget := true
  launchedMissiles := []

/-- C5: the damage function equals
`baseDamage * min(1, sig/expRadius) * sqrt(v/expVelocity)` on
non-negative inputs with positive radius and velocity; it is `0` for a
stationary target, the full `500` for matched signature and velocity,
and exceeds `baseDamage` whenever the target outruns the explosion
velocity (no clamping above base). -/
theorem c5_damage_model :
    (∀ b sig v er ev : ℝ, 0 ≤ b → 0 ≤ sig → 0 ≤ v → 0 < er → 0 < ev →
      calculateMissileDamage b sig v er ev = b * min 1 (sig / er) * Real.sqrt (v / ev)) ∧
    calculateMissileDamage 500 400 0 125 150 = 0 ∧
    calculateMissileDamage 500 125 150 125 150 = 500 ∧
    (∀ b sig v er ev : ℝ, 0 < b → 0 < er → er ≤ sig → 0 < ev → ev < v →
      b < calculateMissileDamage b sig v er ev) := by
  have hpow : ∀ x : ℝ, x ^ (0.5 : ℝ) = Real.sqrt x := by
    intro x
    rw [Real.sqrt_eq_rpow]
    norm_num
  refine ⟨?_, ?_, ?_, ?_⟩
  · intro b sig v er ev _ _ _ _ _
    rw [calculateMissileDamage, hpow]
  · rw [calculateMissileDamage, hpow]
    norm_num
  · rw [calculateMissileDamage, hpow]
    norm_num
  · intro b sig v er ev hb her hsig hev hv
    rw [calculateMissileDamage, hpow]
    have h1 : min 1 (sig / er) = 1 := by
      rw [min_eq_left]
      rw [le_div_iff₀ her]
      linarith
    rw [h1, mul_one]
    have h2 : (1 : ℝ) < v / ev := (one_lt_div hev).2 hv
    have h3 : (1 : ℝ) < Real.sqrt (v / ev) := by
      have := Real.sqrt_lt_sqrt (by norm_num) h2
      simpa using this
    calc b = b * 1 := (mul_one b).symm
    _ < b * Real.sqrt (v / ev) := by
      exact mul_lt_mul_of_pos_left h3 hb

/-- Witness for C5 at concrete inputs: the formula conjunct at
`(500, 400, 100, 125, 150)` and the excess-damage conjunct at
`(500, 125, 600, 125, 150)`. -/
theorem c5_damage_model_witness :
    ((0:ℝ) ≤ 500 ∧ (0:ℝ) ≤ 400 ∧ (0:ℝ) ≤ 100 ∧ (0:ℝ) < 125 ∧ (0:ℝ) < 150 ∧
      calculateMissileDamage 500 400 100 125 150 =
        500 * min 1 ((400:ℝ) / 125) * Real.sqrt ((100:ℝ) / 150)) ∧
    ((0:ℝ) < 500 ∧ (0:ℝ) < 125 ∧ (125:ℝ) ≤ 125 ∧ (0:ℝ) < 150 ∧ (150:ℝ) < 600 ∧
      (500:ℝ) < calculateMissileDamage 500 125 600 125 150) :=
  ⟨⟨by norm_num, by norm_num, by norm_num, by norm_num, by norm_num,
    c5_damage_model.1 500 400 100 125 150 (by norm_num) (by norm_num) (by norm_num)
      (by norm_num) (by norm_num)⟩,
   ⟨by norm_num, by norm_num, by norm_num, by norm_num, by norm_num,
    c5_damage_model.2.2.2 500 125 600 125 150 (by norm_num) (by norm_num) (by norm_num)
      (by norm_num) (by norm_num)⟩⟩

/-- C10: calling `takeDamage` on a battleship whose shield and armor are
both `0` leaves the whole battleship state unchanged, for every damage
amount. -/
theorem c10_depleted_tank_absorbs (damage : ℝ) (b : Battleship)
    (hs : b.currentShield = 0) (ha : b.currentArmor = 0) :
    Battleship.takeDamage damage b = b := by
  simp [Battleship.takeDamage, hs, ha]

/-- Witness for C10: a concrete depleted battleship absorbs a 1234-point
hit with no state change. -/
theorem c10_depleted_tank_absorbs_witness :
    c10Ship.currentShield = 0 ∧ c10Ship.currentArmor = 0 ∧
    Battleship.takeDamage 1234 c10Ship = c10Ship :=
  ⟨rfl, rfl, c10_depleted_tank_absorbs 1234 c10Ship rfl rfl⟩

/-- C4: `Smartbomb.activate` fails with reason `cycling` while
`isCycling` holds and with reason `no_cap` when the owner's capacitor is
below the cost, and in both cases the owner battleship (capacitor,
cooldown, cycling flag, activation count) and every tracked missile are
returned unchanged. -/
theorem c4_activate_gating :
    (∀ (b : Battleship) (missiles : List Missile), b.smartbomb.isCycling = true →
      Smartbomb.activate b missiles = (.failure "cycling", b, missiles)) ∧
    (∀ (b : Battleship) (missiles : List Missile), b.smartbomb.isCycling = false →
      b.currentCapacitor < Smartbomb.capacitorCost →
      Smartbomb.activate b missiles = (.failure "no_cap", b, missiles)) := by
  constructor
  · intro b ms h
    simp [Smartbomb.activate, h]
  · intro b ms h hcap
    simp [Smartbomb.activate, h, hcap]

/-- Witness for C4: both failure branches at concrete states. -/
theorem c4_activate_gating_witness :
    (c4CyclingShip.smartbomb.isCycling = true ∧
      Smartbomb.activate c4CyclingShip [] = (.failure "cycling", c4CyclingShip, [])) ∧
    (c4PoorShip.smartbomb.isCycling = false ∧
      c4PoorShip.currentCapacitor < Smartbomb.capacitorCost ∧
      Smartbomb.activate c4PoorShip [] = (.failure "no_cap", c4PoorShip, [])) :=
  ⟨⟨rfl, c4_activate_gating.1 c4CyclingShip [] rfl⟩,
   ⟨rfl, by norm_num [c4PoorShip, Battleship.init, Smartbomb.capacitorCost],
    c4_activate_gating.2 c4PoorShip [] rfl
      (by norm_num [c4PoorShip, Battleship.init, Smartbomb.capacitorCost])⟩⟩

/-- C8: a missile that is no longer alive is inert — `update`, `impact`
and `takeDamage` all return the missile (and the target) completely
unchanged, `takeDamage` returning `false`; and the `hasImpacted` guard
makes `impact` a no-op on any missile that has already impacted, so
impact damage is applied at most once even if `update` runs again inside
the 50-unit threshold. -/
theorem c8_dead_missile_inert :
    (∀ (deltaTime : ℝ) (m : Missile) (b : Battleship), m.alive = false →
      Missile.update deltaTime m b = (m, b)) ∧
    (∀ (m : Missile) (b : Battleship), m.alive = false →
      Missile.impact m b = (m, b)) ∧
    (∀ (damage : ℝ) (m : Missile), m.alive = false →
      Missile.takeDamage damage m = (false, m)) ∧
    (∀ (m : Missile) (b : Battleship), m.hasImpacted = true →
      Missile.impact m b = (m, b)) := by
  refine ⟨?_, ?_, ?_, ?_⟩
  · intro dt m b h
    simp [Missile.update, h]
  · intro m b h
    simp [Missile.impact, h]
  · intro d m h
    simp [Missile.takeDamage, h]
  · intro m b h
    simp [Missile.impact, h]

/-- Witness for C8: all four no-op facts at a concrete destroyed
missile (and a concrete impacted missile for the guard). -/
theorem c8_dead_missile_inert_witness :
    c8DeadMissile.alive = false ∧
    Missile.update 1 c8DeadMissile Battleship.init = (c8DeadMissile, Battleship.init) ∧
    Missile.impact c8DeadMissile Battleship.init = (c8DeadMissile, Battleship.init) ∧
    Missile.takeDamage 200 c8DeadMissile = (false, c8DeadMissile) ∧
    Missile.impact { c8DeadMissile with hasImpacted := true } Battleship.init =
      ({ c8DeadMissile with hasImpacted := true }, Battleship.init) :=
  ⟨rfl,
   c8_dead_missile_inert.1 1 c8DeadMissile Battleship.init rfl,
   c8_dead_missile_inert.2.1 c8DeadMissile Battleship.init rfl,
   c8_dead_missile_inert.2.2.1 200 c8DeadMissile rfl,
   c8_dead_missile_inert.2.2.2 _ Battleship.init rfl⟩

/-- The propulsion pass never touches shield or armor. -/
lemma updatePropulsion_shield_armor (deltaTime : ℝ) (b : Battleship) :
    (Battleship.updatePropulsion deltaTime b).currentShield = b.currentShield ∧
    (Battleship.updatePropulsion deltaTime b).currentArmor = b.currentArmor := by
  simp only [Battleship.updatePropulsion]
  split_ifs <;> exact ⟨rfl, rfl⟩

/-- The propulsion pass only ever debits capacitor it has checked is
there, so a non-negative capacitor stays non-negative (and it never adds
any). -/
lemma updatePropulsion_cap (deltaTime : ℝ) (b : Battleship)
    (h : 0 ≤ b.currentCapacitor) :
    0 ≤ (Battleship.updatePropulsion deltaTime b).currentCapacitor ∧
    (Battleship.updatePropulsion deltaTime b).currentCapacitor ≤ b.currentCapacitor := by
  simp only [Battleship.updatePropulsion, Battleship.afterburnerCapCost, Battleship.mwdCapCost]
  split_ifs <;> simp_all <;> (try constructor) <;> linarith

/-- The navigation pass never touches the tank. -/
lemma updateNavigation_tank (deltaTime : ℝ) (b : Battleship) :
    (Battleship.updateNavigation deltaTime b).currentShield = b.currentShield ∧
    (Battleship.updateNavigation deltaTime b).currentArmor = b.currentArmor ∧
    (Battleship.updateNavigation deltaTime b).currentCapacitor = b.currentCapacitor := by
  cases htp : b.targetPosition <;>
    simp only [Battleship.updateNavigation, htp] <;>
    (try split_ifs) <;> simp

/-- One full battleship tick preserves shield and armor exactly and
keeps the capacitor in `[0, maxCapacitor]`. -/
lemma update_tank (deltaTime : ℝ) (b : Battleship) (h : 0 ≤ b.currentCapacitor) :
    (Battleship.update deltaTime b).currentShield = b.currentShield ∧
    (Battleship.update deltaTime b).currentArmor = b.currentArmor ∧
    0 ≤ (Battleship.update deltaTime b).currentCapacitor ∧
    (Battleship.update deltaTime b).currentCapacitor ≤ Battleship.maxCapacitor := by
  have h1 := updatePropulsion_shield_armor deltaTime b
  have h2 := updateNavigation_tank deltaTime (Battleship.updatePropulsion deltaTime b)
  have h3 := updatePropulsion_cap deltaTime b h
  unfold Battleship.update Battleship.rechargeCapacitor
  dsimp only
  refine ⟨by rw [h2.1, h1.1], by rw [h2.2.1, h1.2], ?_, ?_⟩
  · rw [h2.2.2]
    have hr : (0:ℝ) ≤ Battleship.capacitorRecharge := by
      norm_num [Battleship.capacitorRecharge]
    exact le_min (by norm_num [Battleship.maxCapacitor]) (by linarith [h3.1])
  · exact min_le_left _ _

/-- `takeDamage` with non-negative damage keeps shield in
`[0, previous shield]`, never increases armor, and leaves the capacitor
alone. -/
lemma takeDamage_tank (damage : ℝ) (b : Battleship) (hd : 0 ≤ damage)
    (hs : 0 ≤ b.currentShield) :
    0 ≤ (Battleship.takeDamage damage b).currentShield ∧
    (Battleship.takeDamage damage b).currentShield ≤ b.currentShield ∧
    (Battleship.takeDamage damage b).currentArmor ≤ b.currentArmor ∧
    (Battleship.takeDamage damage b).currentCapacitor = b.currentCapacitor := by
  simp only [Battleship.takeDamage]
  split_ifs <;> simp_all <;> (try constructor) <;> (try constructor) <;> linarith

/-- The tank bounds that hold are preserved under every interleaving of
ticks and non-negative incoming-damage calls. -/
lemma runCmds_tankInv : ∀ (cmds : List PCmd) (b : Battleship), TankInv b →
    (∀ d, PCmd.hit d ∈ cmds → 0 ≤ d) → TankInv (runCmds cmds b) := by
  intro cmds
  induction cmds with
  | nil => intro b hb _; exact hb
  | cons c rest ih =>
    intro b hb hd
    obtain ⟨s1, s2, a1, c1, c2⟩ := hb
    cases c with
    | tick =>
        refine ih _ ?_ (fun d hdm => hd d (List.mem_cons_of_mem _ hdm))
        have h := update_tank 1 b c1
        exact ⟨by rw [h.1]; exact s1, by rw [h.1]; exact s2, by rw [h.2.1]; exact a1,
          h.2.2.1, h.2.2.2⟩
    | hit d =>
        refine ih _ ?_ (fun d2 hdm => hd d2 (List.mem_cons_of_mem _ hdm))
        have hd0 : 0 ≤ d := hd d (List.mem_cons_self _ _)
        have h := takeDamage_tank d b hd0 s1
        exact ⟨h.1, le_trans h.2.1 s2, le_trans h.2.2.1 a1,
          by rw [h.2.2.2]; exact c1, by rw [h.2.2.2]; exact c2⟩

/-- C2 counterexample: the claim asserts `currentArmor` stays within
`[0, maxArmor]` and that armor is floored at 0 when damage overflows the
shield; but one 20000-point hit on the freshly constructed battleship
(shield 10000, armor 8000) drives armor to `-2000`, because the
shield-overflow branch adds the negative remainder to armor without any
floor. -/
theorem c2_counterexample :
    (Battleship.takeDamage 20000 Battleship.init).currentArmor = -2000 ∧
    ¬(0 ≤ (Battleship.takeDamage 20000 Battleship.init).currentArmor) := by
  norm_num [Battleship.takeDamage, Battleship.init, Battleship.maxShield,
    Battleship.maxArmor, Battleship.maxCapacitor]

/-- C2 (amended): under every sequence of ticks and non-negative
`takeDamage` calls, shield stays in `[0, maxShield]`, capacitor stays in
`[0, maxCapacitor]`, and armor never exceeds `maxArmor`; when incoming
damage exceeds a positive shield, the negative remainder is added to the
armor (unfloored) and the shield clamps to 0. -/
theorem c2_tank_bounds (cmds : List PCmd) (b : Battleship)
    (hb : TankInv b) (hd : ∀ d, PCmd.hit d ∈ cmds → 0 ≤ d) :
    TankInv (runCmds cmds b) ∧
    (∀ (damage : ℝ) (b2 : Battleship), 0 < b2.currentShield →
      b2.currentShield - damage < 0 →
      (Battleship.takeDamage damage b2).currentShield = 0 ∧
      (Battleship.takeDamage damage b2).currentArmor =
        b2.currentArmor + (b2.currentShield - damage)) := by
  refine ⟨runCmds_tankInv cmds b hb hd, ?_⟩
  intro damage b2 h1 h2
  simp only [Battleship.takeDamage]
  rw [if_pos h1, if_pos h2]
  exact ⟨rfl, rfl⟩

/-- Witness for C2 at a concrete run: one tick followed by a 500-point
hit on the freshly constructed battleship. -/
theorem c2_tank_bounds_witness :
    TankInv Battleship.init ∧
    (∀ d, PCmd.hit d ∈ [PCmd.tick, PCmd.hit 500] → 0 ≤ d) ∧
    TankInv (runCmds [PCmd.tick, PCmd.hit 500] Battleship.init) := by
  have hinv : TankInv Battleship.init := by
    norm_num [TankInv, Battleship.init, Battleship.maxShield, Battleship.maxArmor,
      Battleship.maxCapacitor]
  have hhits : ∀ d, PCmd.hit d ∈ [PCmd.tick, PCmd.hit 500] → 0 ≤ d := by
    intro d hdm
    simp only [List.mem_cons, List.not_mem_nil, or_false, reduceCtorEq, false_or,
      PCmd.hit.injEq] at hdm
    subst hdm
    norm_num
  exact ⟨hinv, hhits, (c2_tank_bounds _ _ hinv hhits).1⟩

/-- The norm of a vector scaled component-wise by a non-negative factor. -/
lemma norm3_scale (x y z r : ℝ) (hr : 0 ≤ r) :
    Real.sqrt (x * r * (x * r) + y * r * (y * r) + z * r * (z * r)) =
      Real.sqrt (x * x + y * y + z * z) * r := by
  have hs : 0 ≤ x * x + y * y + z * z :=
    add_nonneg (add_nonneg (mul_self_nonneg x) (mul_self_nonneg y)) (mul_self_nonneg z)
  have h1 : x * r * (x * r) + y * r * (y * r) + z * r * (z * r) =
      (x * x + y * y + z * z) * (r * r) := by ring
  rw [h1, Real.sqrt_mul hs, Real.sqrt_mul_self hr]

/-- Scaling a vector by `maxSpeed / currentVel` yields norm exactly
`maxSpeed` (the clamp step of the navigation passes). -/
lemma clamped_speed_eq (x y z m : ℝ) (hm : 0 < m)
    (hgt : Real.sqrt (x * x + y * y + z * z) > m) :
    Real.sqrt (x * (m / Real.sqrt (x * x + y * y + z * z)) *
        (x * (m / Real.sqrt (x * x + y * y + z * z))) +
      y * (m / Real.sqrt (x * x + y * y + z * z)) *
        (y * (m / Real.sqrt (x * x + y * y + z * z))) +
      z * (m / Real.sqrt (x * x + y * y + z * z)) *
        (z * (m / Real.sqrt (x * x + y * y + z * z)))) = m := by
  have hn : 0 < Real.sqrt (x * x + y * y + z * z) := lt_trans hm hgt
  have hr : 0 ≤ m / Real.sqrt (x * x + y * y + z * z) := le_of_lt (div_pos hm hn)
  rw [norm3_scale x y z _ hr, mul_comm, div_mul_cancel₀ _ (ne_of_gt hn)]

/-- The propulsion pass never touches position, velocity or the
navigation target. -/
lemma updatePropulsion_frame (deltaTime : ℝ) (b : Battleship) :
    (Battleship.updatePropulsion deltaTime b).targetPosition = b.targetPosition ∧
    (Battleship.updatePropulsion deltaTime b).position = b.position ∧
    (Battleship.updatePropulsion deltaTime b).velocity = b.velocity := by
  simp only [Battleship.updatePropulsion]
  split_ifs <;> exact ⟨rfl, rfl, rfl⟩

/-- The `maxSpeed` recomputed by the propulsion pass is positive in all
module configurations (125, 187.5, 625, or 937.5). -/
lemma updatePropulsion_maxSpeed_pos (deltaTime : ℝ) (b : Battleship) :
    0 < (Battleship.updatePropulsion deltaTime b).maxSpeed := by
  simp only [Battleship.updatePropulsion]
  split_ifs <;> dsimp only <;>
    norm_num [Battleship.baseSpeed, Battleship.afterburnerBoost, Battleship.mwdBoost]

/-- The navigation pass never changes `maxSpeed`. -/
lemma updateNavigation_maxSpeed (deltaTime : ℝ) (b : Battleship) :
    (Battleship.updateNavigation deltaTime b).maxSpeed = b.maxSpeed := by
  cases htp : b.targetPosition <;> simp only [Battleship.updateNavigation, htp] <;>
    (try split_ifs) <;> rfl

/-- When a (non-arrived) target is present, the navigation pass clamps
the new velocity to `maxSpeed`. -/
lemma updateNavigation_speed (deltaTime : ℝ) (b : Battleship) (tp : V3)
    (htp : b.targetPosition = some tp)
    (hfar : ¬ (Real.sqrt ((tp.x - b.position.x) * (tp.x - b.position.x) +
        (tp.y - b.position.y) * (tp.y - b.position.y) +
        (tp.z - b.position.z) * (tp.z - b.position.z)) < 100))
    (hm : 0 < b.maxSpeed) :
    norm3 (Battleship.updateNavigation deltaTime b).velocity ≤ b.maxSpeed := by
  simp only [Battleship.updateNavigation, htp]
  rw [if_neg hfar]
  dsimp only [norm3]
  split_ifs with hclamp
  · exact le_of_eq (clamped_speed_eq _ _ _ _ hm hclamp)
  · exact le_of_not_lt hclamp

/-- C3 counterexample: the claim asserts speed ≤ `maxSpeed` after every
tick; but a tick on a targetless battleship coasting at 500 m/s only
decays the velocity by the 0.95 idle-drag factor to 475 m/s, with no
clamp, while the recomputed `maxSpeed` is the base 125. -/
theorem c3_counterexample :
    (Battleship.update 1 c3FastShip).maxSpeed = 125 ∧
    (Battleship.update 1 c3FastShip).currentSpeed = 475 ∧
    ¬((Battleship.update 1 c3FastShip).currentSpeed ≤
      (Battleship.update 1 c3FastShip).maxSpeed) := by
  have hsqrt : Real.sqrt 225625 = 475 := by
    have h : (225625 : ℝ) = 475 ^ 2 := by norm_num
    rw [h, Real.sqrt_sq (by norm_num)]
  refine ⟨?_, ?_, ?_⟩ <;>
    norm_num [Battleship.update, Battleship.updatePropulsion, Battleship.updateNavigation,
      Battleship.rechargeCapacitor, Smartbomb.update, c3FastShip, Battleship.init,
      Smartbomb.init, Battleship.baseSpeed, Battleship.baseSignatureRadius,
      Battleship.maxCapacitor, Battleship.capacitorRecharge, hsqrt]

/-- C3 (amended): when a navigation target is present and not yet
reached (distance at least 100), the tick's navigation pass clamps the
velocity, so the speed after the tick is at most the `maxSpeed`
recomputed that tick; without a target the velocity is only decayed by
0.95 and can exceed a freshly lowered `maxSpeed`. -/
theorem c3_speed_clamped_when_navigating (b : Battleship) (tp : V3)
    (htp : b.targetPosition = some tp)
    (hfar : ¬ (distance3D b.position tp < 100)) :
    (Battleship.update 1 b).currentSpeed ≤ (Battleship.update 1 b).maxSpeed := by
  have hframe := updatePropulsion_frame 1 b
  have hm := updatePropulsion_maxSpeed_pos 1 b
  have htp1 : (Battleship.updatePropulsion 1 b).targetPosition = some tp := by
    rw [hframe.1, htp]
  have hfar1 : ¬ (Real.sqrt
      ((tp.x - (Battleship.updatePropulsion 1 b).position.x) *
        (tp.x - (Battleship.updatePropulsion 1 b).position.x) +
      (tp.y - (Battleship.updatePropulsion 1 b).position.y) *
        (tp.y - (Battleship.updatePropulsion 1 b).position.y) +
      (tp.z - (Battleship.updatePropulsion 1 b).position.z) *
        (tp.z - (Battleship.updatePropulsion 1 b).position.z)) < 100) := by
    rw [hframe.2.1]
    simpa [distance3D] using hfar
  have hspeed := updateNavigation_speed 1 (Battleship.updatePropulsion 1 b) tp htp1 hfar1 hm
  have hnavms := updateNavigation_maxSpeed 1 (Battleship.updatePropulsion 1 b)
  unfold Battleship.update Battleship.rechargeCapacitor
  dsimp only
  rw [hnavms]
  simpa only [norm3] using hspeed

/-- Witness for C3 (amended) at a concrete navigating battleship. -/
theorem c3_speed_clamped_witness :
    c3NavShip.targetPosition = some ⟨50000, 0, 0⟩ ∧
    ¬ (distance3D c3NavShip.position ⟨50000, 0, 0⟩ < 100) ∧
    (Battleship.update 1 c3NavShip).currentSpeed ≤ (Battleship.update 1 c3NavShip).maxSpeed := by
  have hfar : ¬ (distance3D c3NavShip.position ⟨50000, 0, 0⟩ < 100) := by
    have h : distance3D c3NavShip.position ⟨50000, 0, 0⟩ = 50000 := by
      have h2 : ((50000:ℝ) - 0) * (50000 - 0) + (0 - 0) * (0 - 0) + (0 - 0) * (0 - 0) =
          50000 ^ 2 := by norm_num
      simp only [distance3D, c3NavShip, Battleship.init]
      rw [h2, Real.sqrt_sq (by norm_num)]
    rw [h]
    norm_num
  exact ⟨rfl, hfar, c3_speed_clamped_when_navigating c3NavShip ⟨50000, 0, 0⟩ rfl hfar⟩

/-- C6: `activateMWD` returns `false` and changes nothing when the MWD
is already active; otherwise it returns `true`, activates the MWD and
sets `mwdCycleRemaining` to the full 10000 ms; and after the activation
on the fresh battleship (capacitor 5000), ten written-out ticks later
the MWD has auto-deactivated and `mwdCycleRemaining` is back to 0. -/
theorem c6_mwd_cycle :
    (∀ b : Battleship, b.mwdActive = true → Battleship.activateMWD b = (false, b)) ∧
    (∀ b : Battleship, b.mwdActive = false →
      Battleship.activateMWD b =
        (true, { b with mwdActive := true,
                        mwdCycleRemaining := Battleship.mwdCycleTime })) ∧
    ((Battleship.update 1 (Battleship.update 1 (Battleship.update 1 (Battleship.update 1
      (Battleship.update 1 (Battleship.update 1 (Battleship.update 1 (Battleship.update 1
      (Battleship.update 1 (Battleship.update 1 c6Start)))))))))).mwdActive = false ∧
     (Battleship.update 1 (Battleship.update 1 (Battleship.update 1 (Battleship.update 1
      (Battleship.update 1 (Battleship.update 1 (Battleship.update 1 (Battleship.update 1
      (Battleship.update 1 (Battleship.update 1 c6Start)))))))))).mwdCycleRemaining = 0) := by
  refine ⟨?_, ?_, ?_⟩
  · intro b h
    simp [Battleship.activateMWD, h]
  · intro b h
    simp [Battleship.activateMWD, h]
  · norm_num [c6Start, Battleship.update, Battleship.updatePropulsion,
      Battleship.updateNavigation, Battleship.rechargeCapacitor, Smartbomb.update,
      Battleship.activateMWD, Battleship.init, Smartbomb.init, Battleship.baseSpeed,
      Battleship.baseSignatureRadius, Battleship.maxShield, Battleship.maxArmor,
      Battleship.maxCapacitor, Battleship.capacitorRecharge, Battleship.afterburnerCapCost,
      Battleship.mwdCapCost, Battleship.mwdCycleTime, Battleship.afterburnerBoost,
      Battleship.mwdBoost, Battleship.afterburnerSigPenalty, Battleship.mwdSigPenalty,
      min_def, Real.sqrt_zero]

/-- Witness for C6's two hypothetical conjuncts: the MWD-active ship
rejects a second activation unchanged, and the fresh (inactive) ship
activates with a full 10000 ms cycle. -/
theorem c6_mwd_cycle_witness :
    c6Start.mwdActive = true ∧
    Battleship.activateMWD c6Start = (false, c6Start) ∧
    Battleship.init.mwdActive = false ∧
    Battleship.activateMWD Battleship.init =
      (true, { Battleship.init with mwdActive := true,
                                    mwdCycleRemaining := Battleship.mwdCycleTime }) :=
  ⟨rfl, c6_mwd_cycle.1 c6Start rfl, rfl, c6_mwd_cycle.2.1 Battleship.init rfl⟩

/-- `chooseNewBehavior` never touches the behavior-change interval. -/
lemma chooseNewBehavior_interval (d : EnemyDraws) (target : Battleship) (e : EnemyShip) :
    (EnemyShip.chooseNewBehavior d target e).behaviorChangeInterval =
      e.behaviorChangeInterval := by
  unfold EnemyShip.chooseNewBehavior
  dsimp only
  split_ifs <;> rfl

/-- `chooseNewBehavior` never touches the behavior-change timer. -/
lemma chooseNewBehavior_timer (d : EnemyDraws) (target : Battleship) (e : EnemyShip) :
    (EnemyShip.chooseNewBehavior d target e).behaviorChangeTimer = e.behaviorChangeTimer := by
  unfold EnemyShip.chooseNewBehavior
  dsimp only
  split_ifs <;> rfl

/-- `chooseNewBehavior` never touches the target reference. -/
lemma chooseNewBehavior_hasTarget (d : EnemyDraws) (target : Battleship) (e : EnemyShip) :
    (EnemyShip.chooseNewBehavior d target e).hasTarget = e.hasTarget := by
  unfold EnemyShip.chooseNewBehavior
  dsimp only
  split_ifs <;> rfl

/-- `chooseNewBehavior` never touches the missile timer. -/
lemma chooseNewBehavior_missileTimer (d : EnemyDraws) (target : Battleship) (e : EnemyShip) :
    (EnemyShip.chooseNewBehavior d target e).missileTimer = e.missileTimer := by
  unfold EnemyShip.chooseNewBehavior
  dsimp only
  split_ifs <;> rfl

/-- With a live target, `chooseNewBehavior` re-rolls `maxSpeed` to
`randomFloat 200 600` of the speed draw, in every behavior branch. -/
lemma chooseNewBehavior_maxSpeed (d : EnemyDraws) (target : Battleship) (e : EnemyShip)
    (h : e.hasTarget = true) :
    (EnemyShip.chooseNewBehavior d target e).maxSpeed = randomFloat 200 600 d.speedRoll := by
  simp [EnemyShip.chooseNewBehavior, h]

/-- The enemy movement pass only touches position, velocity and
`currentSpeed`. -/
lemma enemyMovement_frame (deltaTime : ℝ) (e : EnemyShip) :
    (EnemyShip.updateMovement deltaTime e).behaviorChangeInterval =
      e.behaviorChangeInterval ∧
    (EnemyShip.updateMovement deltaTime e).behaviorChangeTimer = e.behaviorChangeTimer ∧
    (EnemyShip.updateMovement deltaTime e).maxSpeed = e.maxSpeed ∧
    (EnemyShip.updateMovement deltaTime e).missileTimer = e.missileTimer ∧
    (EnemyShip.updateMovement deltaTime e).hasTarget = e.hasTarget ∧
    (EnemyShip.updateMovement deltaTime e).missileLaunchInterval =
      e.missileLaunchInterval := by
  cases htp : e.targetPosition <;> simp [EnemyShip.updateMovement, htp]

/-- Launching a volley only appends missiles (and the caller then
reloads the missile timer); behavior fields and `maxSpeed` survive. -/
lemma launchMissileVolley_frame (jitter : ℕ → V3) (e : EnemyShip) :
    (EnemyShip.launchMissileVolley jitter e).2.behaviorChangeInterval =
      e.behaviorChangeInterval ∧
    (EnemyShip.launchMissileVolley jitter e).2.behaviorChangeTimer =
      e.behaviorChangeTimer ∧
    (EnemyShip.launchMissileVolley jitter e).2.maxSpeed = e.maxSpeed ∧
    (EnemyShip.launchMissileVolley jitter e).2.missileLaunchInterval =
      e.missileLaunchInterval := by
  unfold EnemyShip.launchMissileVolley
  split_ifs <;> exact ⟨rfl, rfl, rfl, rfl⟩

/-- C7 counterexample: with the all-zero randomness source, every fresh
`randomFloat 5 20` roll is 5; yet a behavior switch reloads the timer
with the spawn-time interval 19.5.  The behavior-change interval used to
reload the timer is therefore not freshly re-rolled at the switch. -/
theorem c7_counterexample :
    (EnemyShip.update 1 zeroDraws Battleship.init c7Enemy).behaviorChangeTimer = 19.5 ∧
    randomFloat 5 20 0 = 5 ∧ ((19.5 : ℝ) ≠ 5) := by
  refine ⟨?_, by norm_num [randomFloat], by norm_num⟩
  norm_num [EnemyShip.update, c7Enemy, chooseNewBehavior_interval, chooseNewBehavior_timer,
    chooseNewBehavior_missileTimer, chooseNewBehavior_hasTarget, enemyMovement_frame,
    launchMissileVolley_frame]

/-- C7 (amended): at a behavior switch the behavior-change interval is
left exactly as rolled at spawn and the timer is reloaded with that
spawn-time interval, while `maxSpeed` is freshly re-rolled as
`randomFloat 200 600` of the speed draw — landing in `[200, 600)` for a
draw in `[0, 1)`. -/
theorem c7_interval_not_rerolled (deltaTime : ℝ) (d : EnemyDraws) (target : Battleship)
    (e : EnemyShip) (hswitch : e.behaviorChangeTimer - deltaTime ≤ 0)
    (ht : e.hasTarget = true) (h0 : 0 ≤ d.speedRoll) (h1 : d.speedRoll < 1) :
    (EnemyShip.update deltaTime d target e).behaviorChangeInterval =
      e.behaviorChangeInterval ∧
    (EnemyShip.update deltaTime d target e).behaviorChangeTimer =
      e.behaviorChangeInterval ∧
    (EnemyShip.update deltaTime d target e).maxSpeed = randomFloat 200 600 d.speedRoll ∧
    200 ≤ (EnemyShip.update deltaTime d target e).maxSpeed ∧
    (EnemyShip.update deltaTime d target e).maxSpeed < 600 := by
  have hbounds : 200 ≤ randomFloat 200 600 d.speedRoll ∧
      randomFloat 200 600 d.speedRoll < 600 := by
    unfold randomFloat
    constructor <;> nlinarith
  have hc1 := chooseNewBehavior_interval d target
    { e with behaviorChangeTimer := e.behaviorChangeTimer - deltaTime }
  have hc2 := chooseNewBehavior_maxSpeed d target
    { e with behaviorChangeTimer := e.behaviorChangeTimer - deltaTime } ht
  have hm := enemyMovement_frame deltaTime
  have hl := launchMissileVolley_frame d.jitter
  unfold EnemyShip.update
  dsimp only
  rw [if_pos hswitch]
  split_ifs with hmt hht
  · exact ⟨by rw [(hl _).1, (hm _).1, hc1],
      by rw [(hl _).2.1, (hm _).2.1, hc1],
      by rw [(hl _).2.2.1, (hm _).2.2.1, hc2],
      by rw [(hl _).2.2.1, (hm _).2.2.1, hc2]; exact hbounds.1,
      by rw [(hl _).2.2.1, (hm _).2.2.1, hc2]; exact hbounds.2⟩
  · exact ⟨by rw [(hm _).1, hc1], by rw [(hm _).2.1, hc1],
      by rw [(hm _).2.2.1, hc2], by rw [(hm _).2.2.1, hc2]; exact hbounds.1,
      by rw [(hm _).2.2.1, hc2]; exact hbounds.2⟩
  · exact ⟨by rw [(hm _).1, hc1], by rw [(hm _).2.1, hc1],
      by rw [(hm _).2.2.1, hc2], by rw [(hm _).2.2.1, hc2]; exact hbounds.1,
      by rw [(hm _).2.2.1, hc2]; exact hbounds.2⟩

/-- Witness for C7 (amended) at the concrete switching enemy with the
all-zero randomness source. -/
theorem c7_interval_not_rerolled_witness :
    c7Enemy.behaviorChangeTimer - 1 ≤ 0 ∧ c7Enemy.hasTarget = true ∧
    (0:ℝ) ≤ zeroDraws.speedRoll ∧ zeroDraws.speedRoll < 1 ∧
    (EnemyShip.update 1 zeroDraws Battleship.init c7Enemy).behaviorChangeInterval =
      c7Enemy.behaviorChangeInterval ∧
    (EnemyShip.update 1 zeroDraws Battleship.init c7Enemy).behaviorChangeTimer =
      c7Enemy.behaviorChangeInterval ∧
    (EnemyShip.update 1 zeroDraws Battleship.init c7Enemy).maxSpeed =
      randomFloat 200 600 zeroDraws.speedRoll := by
  have h := c7_interval_not_rerolled 1 zeroDraws Battleship.init c7Enemy
    (by norm_num [c7Enemy]) rfl (by norm_num [zeroDraws]) (by norm_num [zeroDraws])
  exact ⟨by norm_num [c7Enemy], rfl, by norm_num [zeroDraws], by norm_num [zeroDraws],
    h.1, h.2.1, h.2.2.1⟩

/-- `Missile.destroy` never writes `destroyTime`. -/
lemma destroy_destroyTime (reason : String) (m : Missile) :
    (Missile.destroy reason m).destroyTime = m.destroyTime := by
  unfold Missile.destroy
  split_ifs <;> rfl

/-- `Missile.takeDamage` never writes `destroyTime`. -/
lemma takeDamage_destroyTime (damage : ℝ) (m : Missile) :
    (Missile.takeDamage damage m).2.destroyTime = m.destroyTime := by
  unfold Missile.takeDamage
  dsimp only
  split_ifs <;> simp [destroy_destroyTime]

/-- `Missile.impact` never writes `destroyTime`. -/
lemma impact_destroyTime (m : Missile) (b : Battleship) :
    (Missile.impact m b).1.destroyTime = m.destroyTime := by
  unfold Missile.impact
  dsimp only
  split_ifs <;> simp [destroy_destroyTime]

/-- `Missile.update` never writes `destroyTime`. -/
lemma missileUpdate_destroyTime (deltaTime : ℝ) (m : Missile) (b : Battleship) :
    (Missile.update deltaTime m b).1.destroyTime = m.destroyTime := by
  unfold Missile.update
  dsimp only
  split_ifs <;> simp [destroy_destroyTime, impact_destroyTime]

/-- The scheduler's per-tick missile pass preserves "destroyTime was
never assigned" across the whole tracked list. -/
lemma missileStep_fold_destroyTime (deltaTime : ℝ) :
    ∀ (ms : List Missile) (acc : List Missile × Battleship),
      (∀ m ∈ acc.1, m.destroyTime = none) → (∀ m ∈ ms, m.destroyTime = none) →
      ∀ m ∈ (ms.foldl (SimulationManager.missileStep deltaTime) acc).1,
        m.destroyTime = none := by
  intro ms
  induction ms with
  | nil => intro acc hacc _ m hm; exact hacc m hm
  | cons m0 rest ih =>
      intro acc hacc hms m hm
      rw [List.foldl_cons] at hm
      refine ih _ ?_ (fun x hx => hms x (List.mem_cons_of_mem _ hx)) m hm
      intro x hx
      unfold SimulationManager.missileStep at hx
      have hm0 : m0.destroyTime = none := hms m0 (List.mem_cons_self _ _)
      split_ifs at hx <;> rcases List.mem_append.1 hx with h | h
      · exact hacc x h
      · rw [List.mem_singleton.1 h, missileUpdate_destroyTime]
        exact hm0
      · exact hacc x h
      · rw [List.mem_singleton.1 h]
        exact hm0

/-- Because `checkEnemyMissileLaunch` always returns `[]`, the enemy
pass of a tick leaves the tracked missile list and the launched counter
exactly as they were. -/
lemma enemyStep_fold_frame (deltaTime : ℝ) (draws : ℕ → EnemyDraws) (target : Battleship) :
    ∀ (ies : List (ℕ × EnemyShip)) (acc : List EnemyShip × List Missile × ℕ),
      (ies.foldl (SimulationManager.enemyStep deltaTime draws target) acc).2.1 = acc.2.1 ∧
      (ies.foldl (SimulationManager.enemyStep deltaTime draws target) acc).2.2 = acc.2.2 := by
  intro ies
  induction ies with
  | nil => intro acc; exact ⟨rfl, rfl⟩
  | cons ie rest ih =>
      intro acc
      have hstep : SimulationManager.enemyStep deltaTime draws target acc ie =
          (acc.1 ++ [EnemyShip.update deltaTime (draws ie.1) target ie.2],
           acc.2.1, acc.2.2) := by
        unfold SimulationManager.enemyStep SimulationManager.checkEnemyMissileLaunch
        norm_num
      rw [List.foldl_cons, hstep]
      exact ih _

/-- C9: after a tick, every missile still in the tracked set is alive:
the retention comparison reads `destroyTime`, which no constructor or
destruction path ever assigns (it stays `none`, i.e. `undefined`), so
the sub-second retention window never applies and dead missiles are
pruned in the same tick. -/
theorem c9_retained_missiles_alive (now : ℝ) (draws : ℕ → EnemyDraws) (s : SimState)
    (h : ∀ m ∈ s.missiles, m.destroyTime = none) :
    (∀ m ∈ (SimulationManager.tick now draws s).missiles,
      m.alive = true ∧ m.destroyTime = none) ∧
    (∀ (pos : V3) (ht : Bool), (mkMissile pos ht).destroyTime = none) ∧
    (∀ (reason : String) (m : Missile),
      (Missile.destroy reason m).destroyTime = m.destroyTime) ∧
    (∀ (damage : ℝ) (m : Missile),
      (Missile.takeDamage damage m).2.destroyTime = m.destroyTime) ∧
    (∀ (m : Missile) (b : Battleship),
      (Missile.impact m b).1.destroyTime = m.destroyTime) ∧
    (∀ (deltaTime : ℝ) (m : Missile) (b : Battleship),
      (Missile.update deltaTime m b).1.destroyTime = m.destroyTime) := by
  refine ⟨?_, fun _ _ => rfl, destroy_destroyTime, takeDamage_destroyTime,
    impact_destroyTime, missileUpdate_destroyTime⟩
  intro m hm
  unfold SimulationManager.tick at hm
  dsimp only at hm
  rw [List.mem_filter] at hm
  have hpass : ∀ x ∈ (s.enemies.enum.foldl
      (SimulationManager.enemyStep 1 draws (Battleship.update 1 s.battleship))
      ([], s.missiles, s.stats.missilesLaunched)).2.1, x.destroyTime = none := by
    rw [(enemyStep_fold_frame 1 draws (Battleship.update 1 s.battleship) _ _).1]
    exact h
  have hdt : m.destroyTime = none :=
    missileStep_fold_destroyTime 1 _ _ (by simp) hpass m hm.1
  refine ⟨?_, hdt⟩
  have hr := hm.2
  unfold SimulationManager.retainMissile at hr
  rw [hdt] at hr
  simpa using hr

/-- Witness for C9: one tick on a state holding a single destroyed
missile (with `destroyTime` unset) retains only alive missiles. -/
theorem c9_retained_missiles_alive_witness :
    (∀ m ∈ c9State.missiles, m.destroyTime = none) ∧
    (∀ m ∈ (SimulationManager.tick 0 (fun _ => zeroDraws) c9State).missiles,
      m.alive = true ∧ m.destroyTime = none) :=
  have h : ∀ m ∈ c9State.missiles, m.destroyTime = none := by
    intro m hm
    rw [List.mem_singleton.1 hm]
    rfl
  ⟨h, (c9_retained_missiles_alive 0 (fun _ => zeroDraws) c9State h).1⟩

/-- C1 (code bug): on a tick in which the enemy's launch timer elapses,
the volley is created and recorded only on the enemy's own
`launchedMissiles`; the scheduler's tracked set stays empty and
`missilesLaunched` stays 0, because `checkEnemyMissileLaunch` always
returns `[]` and `EnemyShip.update` discards the volley it builds. -/
theorem c1_launches_never_tracked :
    (SimulationManager.tick 0 (fun _ => zeroDraws) c1State).missiles = [] ∧
    (SimulationManager.tick 0 (fun _ => zeroDraws) c1State).stats.missilesLaunched = 0 ∧
    (SimulationManager.tick 0 (fun _ => zeroDraws) c1State).enemies.map
      (fun e => e.launchedMissiles.length) = [3] ∧
    (∀ e : EnemyShip, SimulationManager.checkEnemyMissileLaunch e = []) := by
  refine ⟨?_, ?_, ?_, fun _ => rfl⟩ <;>
    norm_num [SimulationManager.tick, SimulationManager.enemyStep,
      SimulationManager.checkEnemyMissileLaunch, SimulationManager.missileStep,
      SimulationManager.retainMissile, c1State, c1Enemy, EnemyShip.update,
      EnemyShip.updateMovement, EnemyShip.launchMissileVolley, mkMissile,
      List.enum, List.enumFrom, zeroDraws]

end

end FirewallSim
